import Mathlib

/-!
Verification of the client-side task-state synchronization logic of a small
single-page task-tracking application (React + hosted backend).

The `TodoApp` component keeps an in-memory ordered collection of tasks
(`tasks`), an uncommitted input field (`newTask`), a `loading` flag and a
surfaced `error` message, and mediates four operations through the remote
store: `loadTasks`, `addTask`, `toggleTask`, `deleteTask`.  Each remote round
trip is modelled by an explicit response value (`Except Str _`: the store
returns either a success payload or an error carrying a human-readable
message), and each operation returns, besides the new component state, the
list of remote requests it issued.

The `App` component (session gate) keeps the session handle, written only by
the initial-session resolution and the auth-state-change listener; the
credential form's `handleAuth` (in `Auth.tsx`) touches only its own local
form state.
-/

namespace TodoSpec

/-- JavaScript strings are modelled as lists of characters, so that every
operation on them is computable by kernel reduction. -/
abbrev Str := List Char

/-- `String.prototype.trim`: removes leading and trailing whitespace. -/
def trimStr (s : Str) : Str :=
  ((s.dropWhile Char.isWhitespace).reverse.dropWhile Char.isWhitespace).reverse

/-- A row of the `todos` table, as used by the component
(`Database["public"]["Tables"]["todos"]["Row"]`). -/
structure Task where
  id : Int
  user_id : Str
  task : Str
  completed : Bool
  created_at : Str
deriving DecidableEq, Repr

/-- The local state of the `TodoApp` component: the ordered task collection,
the uncommitted input text, the loading flag and the surfaced error text. -/
structure TodoState where
  tasks : List Task
  newTask : Str
  loading : Bool
  error : Str
deriving DecidableEq, Repr

/-- A remote request issued by the synchronizer. -/
inductive Request where
  | selectTasks (user_id : Str)
  | insertTask (task : Str) (user_id : Str) (completed : Bool)
  | updateCompleted (id : Int) (completed : Bool)
  | deleteById (id : Int)
deriving DecidableEq, Repr

/-- `loadTasks`: fetches all tasks of the current user.  On success the
collection is replaced by the returned rows (`data || []`); on failure the
error message is surfaced and the collection is left untouched.  In both
cases `loading` ends `false` (the `finally` block) and the error text is
cleared at the start (`setError("")` before the request). -/
def loadTasks (uid : Str) (s : TodoState)
    (resp : Except Str (Option (List Task))) : TodoState × List Request :=
  let s0 := { s with error := [] }
  let req := Request.selectTasks uid
  match resp with
  | .ok data => ({ s0 with tasks := data.getD [], loading := false }, [req])
  | .error msg => ({ s0 with error := msg, loading := false }, [req])

/-- `addTask`: if the trimmed input is empty, returns without doing anything
(no request, no state change).  Otherwise clears the error, submits an insert
of `{task: trimmedTask, user_id: uid, completed: false}`, and on a success
response carrying a row prepends the store-returned row to the collection and
clears the input field; on failure surfaces the error message and leaves
collection and input untouched. -/
def addTask (uid : Str) (s : TodoState)
    (resp : Except Str (Option Task)) : TodoState × List Request :=
  let trimmedTask := trimStr s.newTask
  if trimmedTask = [] then (s, [])
  else
    let s0 := { s with error := [] }
    let req := Request.insertTask trimmedTask uid false
    match resp with
    | .ok (some data) =>
        ({ s0 with tasks := data :: s0.tasks, newTask := [] }, [req])
    | .ok none => (s0, [req])
    | .error msg => ({ s0 with error := msg }, [req])

/-- `toggleTask`: issues an update setting `completed := !currentCompleted`
for the given id; only after a success response does it map the local
collection, flipping `completed` on every task whose id matches; on failure
it surfaces the error message and leaves the collection untouched. -/
def toggleTask (s : TodoState) (id : Int) (currentCompleted : Bool)
    (resp : Except Str Unit) : TodoState × List Request :=
  let s0 := { s with error := [] }
  let req := Request.updateCompleted id (!currentCompleted)
  match resp with
  | .ok _ =>
      ({ s0 with tasks := s0.tasks.map fun task =>
          if task.id == id then { task with completed := !currentCompleted }
          else task }, [req])
  | .error msg => ({ s0 with error := msg }, [req])

/-- The optimistic phase of `deleteTask`: before the remote request resolves,
the task is removed from the local collection (`tasks.filter (task.id !== id)`). -/
def deleteTaskImmediate (s : TodoState) (id : Int) : TodoState :=
  { s with tasks := s.tasks.filter fun task => task.id != id }

/-- `deleteTask`: snapshots the collection (`originalTasks`), removes the id
optimistically, clears the error and issues the remote delete.  On success
nothing more happens; on failure the snapshot is restored and the error
message is surfaced. -/
def deleteTask (s : TodoState) (id : Int)
    (resp : Except Str Unit) : TodoState × List Request :=
  let originalTasks := s.tasks
  let s0 := { deleteTaskImmediate s id with error := [] }
  let req := Request.deleteById id
  match resp with
  | .ok _ => (s0, [req])
  | .error msg => ({ s0 with tasks := originalTasks, error := msg }, [req])

/-- `completedCount`: number of tasks with `completed = true`. -/
def completedCount (tasks : List Task) : Nat :=
  (tasks.filter fun t => t.completed).length

/-- `totalCount`: length of the collection. -/
def totalCount (tasks : List Task) : Nat := tasks.length

/-- `completionPercentage`: `(completedCount / totalCount) * 100` when the
collection is non-empty, `0` otherwise; the division is exact (modelled over
the rationals, as the source computes with real-number division, not integer
division). -/
def completionPercentage (tasks : List Task) : ℚ :=
  if totalCount tasks > 0 then
    ((completedCount tasks : ℚ) / (totalCount tasks : ℚ)) * 100
  else 0

/-- The error text an operation leaves surfaced, as a function of the remote
response alone: empty on success, the carried message on failure. -/
def surfacedError {α : Type} : Except Str α → Str
  | .ok _ => []
  | .error msg => msg

/-- Local state of the credential form (`Auth.tsx`). -/
structure AuthFormState where
  loading : Bool
  email : Str
  password : Str
  isSignUp : Bool
  error : Str
deriving DecidableEq, Repr

/-- `handleAuth`: clears the error, sets `loading`, submits the credentials
(sign-up or sign-in), surfaces the error message on failure, and resets
`loading` in the `finally` block.  It never touches the session state, which
lives in the `App` component. -/
def handleAuth (st : AuthFormState) (resp : Except Str Unit) : AuthFormState :=
  match resp with
  | .ok _ => { st with error := [], loading := false }
  | .error msg => { st with error := msg, loading := false }

/-- Combined state of the session gate (`App`) and the credential form. -/
structure SystemState where
  session : Option Str
  appLoading : Bool
  authForm : AuthFormState
deriving DecidableEq, Repr

/-- The asynchronous events that drive the session gate: the one-time initial
session resolution (`getSession().then`), a notification from the
auth-state-change listener (`onAuthStateChange`), the settling of a
credential submission (`handleAuth`), and a sign-out request (which only
issues `auth.signOut()`; the session change arrives later via the listener). -/
inductive SystemEvent where
  | initialSession (s : Option Str)
  | authStateChange (s : Option Str)
  | submitCredentials (resp : Except Str Unit)
  | signOutRequested
deriving Repr

/-- One step of the session gate, translated from `App` and `Auth.tsx`:
only the initial resolution and the listener write `session`; a credential
submission only updates the form's own state; sign-out changes nothing
locally. -/
def systemStep (st : SystemState) (e : SystemEvent) : SystemState :=
  match e with
  | .initialSession s => { st with session := s, appLoading := false }
  | .authStateChange s => { st with session := s }
  | .submitCredentials resp => { st with authForm := handleAuth st.authForm resp }
  | .signOutRequested => st

/-- A sample uncompleted task, used to instantiate theorems on concrete inputs. -/
def sampleTaskA : Task :=
  { id := 1, user_id := ['u'], task := ['a'], completed := false, created_at := ['p'] }

/-- A sample completed task. -/
def sampleTaskB : Task :=
  { id := 2, user_id := ['u'], task := ['b'], completed := true, created_at := ['q'] }

/-- A sample component state holding the two sample tasks and a non-blank
input field. -/
def sampleState : TodoState :=
  { tasks := [sampleTaskA, sampleTaskB], newTask := ['m'], loading := false,
    error := ['e'] }

/-- A sample component state whose input field holds only whitespace. -/
def blankState : TodoState :=
  { tasks := [sampleTaskA], newTask := [' ', '\t'], loading := false, error := [] }

/-- A sample row as the store would return it for an insert of the trimmed
input of `sampleState`: same text and completed flag, store-assigned id. -/
def sampleStoreRow : Task :=
  { id := 7, user_id := ['u'], task := ['m'], completed := false, created_at := ['r'] }

/- Helper lemmas about filtering and mapping task lists by id. -/

theorem filter_ne_id_of_forall_ne (l : List Task) (i : Int)
    (h : ∀ t ∈ l, t.id ≠ i) : (l.filter fun task => task.id != i) = l := by
  induction l with
  | nil => rfl
  | cons x xs ih =>
    have hx : x.id ≠ i := h x (by simp)
    have hxs : ∀ t ∈ xs, t.id ≠ i := fun t ht => h t (by simp [ht])
    simp [List.filter_cons, hx, ih hxs]

theorem filter_eq_id_nil_of_forall_ne (l : List Task) (i : Int)
    (h : ∀ t ∈ l, t.id ≠ i) : (l.filter fun task => task.id == i) = [] := by
  induction l with
  | nil => rfl
  | cons x xs ih =>
    have hx : x.id ≠ i := h x (by simp)
    have hxs : ∀ t ∈ xs, t.id ≠ i := fun t ht => h t (by simp [ht])
    simp [List.filter_cons, hx, ih hxs]

theorem length_filter_ne_of_mem (l : List Task) (t : Task)
    (hp : l.Pairwise fun a b => a.id ≠ b.id) (hm : t ∈ l) :
    (l.filter fun x => x.id != t.id).length + 1 = l.length := by
  induction l with
  | nil => cases hm
  | cons x xs ih =>
    rcases List.mem_cons.mp hm with rfl | hmem
    · have hxs : ∀ y ∈ xs, y.id ≠ t.id :=
        fun y hy => Ne.symm ((List.pairwise_cons.mp hp).1 y hy)
      simp [List.filter_cons, filter_ne_id_of_forall_ne xs t.id hxs]
    · have hx : x.id ≠ t.id := (List.pairwise_cons.mp hp).1 t hmem
      have := ih (List.pairwise_cons.mp hp).2 hmem
      simp [List.filter_cons, hx]
      omega

theorem not_mem_filter_ne_self (l : List Task) (t : Task) :
    t ∉ l.filter fun x => x.id != t.id := by
  intro h
  have := (List.mem_filter.mp h).2
  simp at this

theorem map_toggle_eq_of_forall_ne (l : List Task) (i : Int) (b : Bool)
    (h : ∀ y ∈ l, y.id ≠ i) :
    (l.map fun task =>
      if task.id == i then { task with completed := b } else task) = l := by
  induction l with
  | nil => rfl
  | cons x xs ih =>
    have hc : ¬((x.id == i) = true) := by simp [h x (by simp)]
    have hxs : ∀ y ∈ xs, y.id ≠ i := fun y hy => h y (by simp [hy])
    simp only [List.map_cons, if_neg hc, ih hxs]

theorem filter_eq_map_toggle (l : List Task) (t : Task) (b : Bool)
    (hp : l.Pairwise fun a b => a.id ≠ b.id) (hm : t ∈ l) :
    ((l.map fun task =>
        if task.id == t.id then { task with completed := b } else task).filter
      fun x => x.id == t.id) = [{ t with completed := b }] := by
  induction l with
  | nil => cases hm
  | cons x xs ih =>
    rcases List.mem_cons.mp hm with rfl | hmem
    · have hxs : ∀ y ∈ xs, y.id ≠ t.id :=
        fun y hy => Ne.symm ((List.pairwise_cons.mp hp).1 y hy)
      simp only [List.map_cons, map_toggle_eq_of_forall_ne xs t.id b hxs]
      simp [List.filter_cons, filter_eq_id_nil_of_forall_ne xs t.id hxs]
    · have hx : x.id ≠ t.id := (List.pairwise_cons.mp hp).1 t hmem
      have hc : ¬((x.id == t.id) = true) := by simp [hx]
      have hrec := ih (List.pairwise_cons.mp hp).2 hmem
      simp only [List.map_cons, if_neg hc, List.filter_cons, if_neg hc]
      exact hrec

theorem filter_ne_map_toggle (l : List Task) (i : Int) (b : Bool) :
    ((l.map fun task =>
        if task.id == i then { task with completed := b } else task).filter
      fun x => x.id != i) = l.filter fun x => x.id != i := by
  induction l with
  | nil => rfl
  | cons x xs ih =>
    by_cases hx : x.id = i
    · have hc : (x.id == i) = true := by simp [hx]
      simp only [List.map_cons, if_pos hc, List.filter_cons]
      rw [if_neg (by simp [hx]), if_neg (by simp [hx])]
      exact ih
    · have hc : ¬((x.id == i) = true) := by simp [hx]
      simp only [List.map_cons, if_neg hc, List.filter_cons]
      rw [if_pos (by simp [hx]), if_pos (by simp [hx])]
      rw [ih]

/-- C1: for every task `t` in the local collection (ids unique, per the data
model), `deleteTask t.id` removes `t` from the collection immediately — in the
optimistic phase, before the remote request resolves — decreasing its length
by exactly 1; and if the remote delete request fails, the collection is
restored to the exact pre-delete snapshot, element-for-element and in the
same order. -/
theorem deleteTask_removes_then_restores (s : TodoState) (t : Task) (msg : Str)
    (hp : s.tasks.Pairwise fun a b => a.id ≠ b.id) (hm : t ∈ s.tasks) :
    (deleteTaskImmediate s t.id).tasks.length + 1 = s.tasks.length ∧
    t ∉ (deleteTaskImmediate s t.id).tasks ∧
    (deleteTask s t.id (Except.error msg)).1.tasks = s.tasks := by
  refine ⟨length_filter_ne_of_mem s.tasks t hp hm, ?_, rfl⟩
  exact not_mem_filter_ne_self s.tasks t

/-- Witness for C1 at a concrete state: deleting task id 1 from a two-task
collection removes it immediately, and a failed remote delete restores the
snapshot. -/
theorem deleteTask_removes_then_restores_witness :
    (sampleState.tasks.Pairwise fun a b => a.id ≠ b.id) ∧
    sampleTaskA ∈ sampleState.tasks ∧
    ((deleteTaskImmediate sampleState sampleTaskA.id).tasks.length + 1 =
        sampleState.tasks.length ∧
      sampleTaskA ∉ (deleteTaskImmediate sampleState sampleTaskA.id).tasks ∧
      (deleteTask sampleState sampleTaskA.id (Except.error ['x'])).1.tasks =
        sampleState.tasks) :=
  ⟨by decide, by decide,
    deleteTask_removes_then_restores sampleState sampleTaskA ['x']
      (by decide) (by decide)⟩

/-- C2: for every input whose trimmed text is non-empty, a successful add
prepends the store-returned row `d` to the front of the collection, so the
first element has text `trim(text)`, `completed = false`, and the
store-assigned id, and the rest of the collection is unchanged.  The
hypotheses on `d` are the store's insert contract: the returned row carries
the submitted text and completed flag. -/
theorem addTask_success_prepends (uid : Str) (s : TodoState) (d : Task)
    (hne : trimStr s.newTask ≠ [])
    (htask : d.task = trimStr s.newTask) (hcomp : d.completed = false) :
    (addTask uid s (Except.ok (some d))).1.tasks = d :: s.tasks ∧
    ((addTask uid s (Except.ok (some d))).1.tasks.head?.map Task.task) =
      some (trimStr s.newTask) ∧
    ((addTask uid s (Except.ok (some d))).1.tasks.head?.map Task.completed) =
      some false ∧
    ((addTask uid s (Except.ok (some d))).1.tasks.head?.map Task.id) =
      some d.id ∧
    (addTask uid s (Except.ok (some d))).1.tasks.tail = s.tasks := by
  simp [addTask, hne, htask, hcomp]

/-- Witness for C2 at a concrete state: adding with input "m" and the store
returning row id 7 prepends that row. -/
theorem addTask_success_prepends_witness :
    (trimStr sampleState.newTask ≠ [] ∧
      sampleStoreRow.task = trimStr sampleState.newTask ∧
      sampleStoreRow.completed = false) ∧
    ((addTask ['u'] sampleState (Except.ok (some sampleStoreRow))).1.tasks =
        sampleStoreRow :: sampleState.tasks ∧
      ((addTask ['u'] sampleState
          (Except.ok (some sampleStoreRow))).1.tasks.head?.map Task.task) =
        some (trimStr sampleState.newTask) ∧
      ((addTask ['u'] sampleState
          (Except.ok (some sampleStoreRow))).1.tasks.head?.map Task.completed) =
        some false ∧
      ((addTask ['u'] sampleState
          (Except.ok (some sampleStoreRow))).1.tasks.head?.map Task.id) =
        some sampleStoreRow.id ∧
      (addTask ['u'] sampleState
          (Except.ok (some sampleStoreRow))).1.tasks.tail =
        sampleState.tasks) :=
  ⟨⟨by decide, by decide, by decide⟩,
    addTask_success_prepends ['u'] sampleState sampleStoreRow
      (by decide) (by decide) (by decide)⟩

/-- C3: for every input whose trimmed text is empty, `addTask` is a silent
no-op whatever the remote response would have been: the state (collection,
input, error, loading) is returned unchanged and no remote request is
issued. -/
theorem addTask_whitespace_noop (uid : Str) (s : TodoState)
    (resp : Except Str (Option Task)) (hempty : trimStr s.newTask = []) :
    addTask uid s resp = (s, []) := by
  simp [addTask, hempty]

/-- Witness for C3 at a concrete state whose input is " \t". -/
theorem addTask_whitespace_noop_witness :
    trimStr blankState.newTask = [] ∧
    addTask ['u'] blankState (Except.error ['z']) = (blankState, []) :=
  ⟨by decide, addTask_whitespace_noop ['u'] blankState (Except.error ['z'])
    (by decide)⟩

/-- C4: for every task `t` in the collection (ids unique), toggling as the UI
does — passing `t.id` and `t`'s current completed value — followed by a
successful remote response yields a collection in which exactly one task has
id `t.id`, namely `t` with only its completed field negated, and the
sublist of all other tasks is unchanged (same elements, same order); the
length is also preserved. -/
theorem toggleTask_flips_exactly_one (s : TodoState) (t : Task)
    (hp : s.tasks.Pairwise fun a b => a.id ≠ b.id) (hm : t ∈ s.tasks) :
    ((toggleTask s t.id t.completed (Except.ok ())).1.tasks.filter
        fun x => x.id == t.id) = [{ t with completed := !t.completed }] ∧
    ((toggleTask s t.id t.completed (Except.ok ())).1.tasks.filter
        fun x => x.id != t.id) = (s.tasks.filter fun x => x.id != t.id) ∧
    (toggleTask s t.id t.completed (Except.ok ())).1.tasks.length =
      s.tasks.length := by
  refine ⟨?_, ?_, ?_⟩
  · exact filter_eq_map_toggle s.tasks t (!t.completed) hp hm
  · exact filter_ne_map_toggle s.tasks t.id (!t.completed)
  · simp [toggleTask]

/-- Witness for C4 at a concrete state: toggling task id 2 flips exactly that
task and leaves task id 1 untouched. -/
theorem toggleTask_flips_exactly_one_witness :
    (sampleState.tasks.Pairwise fun a b => a.id ≠ b.id) ∧
    sampleTaskB ∈ sampleState.tasks ∧
    (((toggleTask sampleState sampleTaskB.id sampleTaskB.completed
          (Except.ok ())).1.tasks.filter fun x => x.id == sampleTaskB.id) =
        [{ sampleTaskB with completed := !sampleTaskB.completed }] ∧
      ((toggleTask sampleState sampleTaskB.id sampleTaskB.completed
          (Except.ok ())).1.tasks.filter fun x => x.id != sampleTaskB.id) =
        (sampleState.tasks.filter fun x => x.id != sampleTaskB.id) ∧
      (toggleTask sampleState sampleTaskB.id sampleTaskB.completed
          (Except.ok ())).1.tasks.length = sampleState.tasks.length) :=
  ⟨by decide, by decide,
    toggleTask_flips_exactly_one sampleState sampleTaskB (by decide) (by decide)⟩

/-- C5: if the remote insert fails, `addTask` preserves the uncommitted input
text (the field is not cleared), leaves the collection unchanged (nothing was
optimistically inserted), and surfaces the error message. -/
theorem addTask_failure_preserves (uid : Str) (s : TodoState) (msg : Str)
    (hne : trimStr s.newTask ≠ []) :
    (addTask uid s (Except.error msg)).1.tasks = s.tasks ∧
    (addTask uid s (Except.error msg)).1.newTask = s.newTask ∧
    (addTask uid s (Except.error msg)).1.error = msg := by
  simp [addTask, hne]

/-- Witness for C5 at a concrete state: a failed insert leaves the collection
and the input "m" intact and surfaces the message. -/
theorem addTask_failure_preserves_witness :
    trimStr sampleState.newTask ≠ [] ∧
    ((addTask ['u'] sampleState (Except.error ['w'])).1.tasks =
        sampleState.tasks ∧
      (addTask ['u'] sampleState (Except.error ['w'])).1.newTask =
        sampleState.newTask ∧
      (addTask ['u'] sampleState (Except.error ['w'])).1.error = ['w']) :=
  ⟨by decide, addTask_failure_preserves ['u'] sampleState ['w'] (by decide)⟩

/-- C6: whenever the remote call returns an error, `loadTasks` and
`toggleTask` (and `addTask`) leave the local task collection exactly as it
was — local mutation only follows confirmed success; `deleteTask` is the sole
operation where a failure undoes a local mutation: it ends with the original
collection restored rather than having never mutated. -/
theorem failure_leaves_collection_unchanged (uid : Str) (s : TodoState)
    (id : Int) (c : Bool) (msg : Str) :
    (loadTasks uid s (Except.error msg)).1.tasks = s.tasks ∧
    (toggleTask s id c (Except.error msg)).1.tasks = s.tasks ∧
    (addTask uid s (Except.error msg)).1.tasks = s.tasks ∧
    (deleteTask s id (Except.error msg)).1.tasks = s.tasks := by
  refine ⟨rfl, rfl, ?_, rfl⟩
  by_cases h : trimStr s.newTask = [] <;> simp [addTask, h]

/-- C7: `completionPercentage` equals 0 on the empty collection and
`100 * completedCount / totalCount` otherwise, for every collection. -/
theorem completionPercentage_eq (tasks : List Task) :
    completionPercentage tasks =
      if totalCount tasks = 0 then 0
      else (100 * (completedCount tasks : ℚ)) / (totalCount tasks : ℚ) := by
  unfold completionPercentage
  rcases Nat.eq_zero_or_pos (totalCount tasks) with h | h
  · simp [h]
  · rw [if_pos h, if_neg (Nat.pos_iff_ne_zero.mp h), div_mul_eq_mul_div,
      mul_comm]

/-- C8: the session field of the gate is written only by the initial session
resolution and the auth-state-change listener; a credential submission
(whatever its result) and a sign-out request never change it, so the return
value of the credential handler is never trusted to set the authenticated
state. -/
theorem session_written_only_by_listener :
    (∀ (st : SystemState) (r : Except Str Unit),
      (systemStep st (SystemEvent.submitCredentials r)).session = st.session) ∧
    (∀ st : SystemState,
      (systemStep st SystemEvent.signOutRequested).session = st.session) ∧
    (∀ (st : SystemState) (s : Option Str),
      (systemStep st (SystemEvent.initialSession s)).session = s) ∧
    (∀ (st : SystemState) (s : Option Str),
      (systemStep st (SystemEvent.authStateChange s)).session = s) :=
  ⟨fun _ _ => rfl, fun _ => rfl, fun _ _ => rfl, fun _ _ => rfl⟩

/-- C9: deleting an id not present in the collection is harmless: the
optimistic removal changes nothing, the remote delete request is still issued
(exactly one request), and the final collection equals the starting one in
every outcome. -/
theorem deleteTask_absent_id_harmless (s : TodoState) (id : Int)
    (resp : Except Str Unit) (habs : ∀ t ∈ s.tasks, t.id ≠ id) :
    (deleteTaskImmediate s id).tasks = s.tasks ∧
    (deleteTask s id resp).1.tasks = s.tasks ∧
    (deleteTask s id resp).2 = [Request.deleteById id] := by
  have hf := filter_ne_id_of_forall_ne s.tasks id habs
  cases resp <;> simp [deleteTask, deleteTaskImmediate, hf]

/-- Witness for C9 at a concrete state: deleting absent id 5 leaves the
collection identical and issues one delete request. -/
theorem deleteTask_absent_id_harmless_witness :
    (∀ t ∈ sampleState.tasks, t.id ≠ 5) ∧
    ((deleteTaskImmediate sampleState 5).tasks = sampleState.tasks ∧
      (deleteTask sampleState 5 (Except.error ['x'])).1.tasks =
        sampleState.tasks ∧
      (deleteTask sampleState 5 (Except.error ['x'])).2 =
        [Request.deleteById 5]) :=
  ⟨by decide,
    deleteTask_absent_id_harmless sampleState 5 (Except.error ['x']) (by decide)⟩

/-- C10: every operation that reaches the remote store clears any previously
surfaced error when it starts, so the error text it leaves behind is a
function of its own response alone — empty on success, the new message on
failure — independent of whatever error was surfaced before. -/
theorem operations_reset_error (uid : Str) (s : TodoState) (id : Int)
    (c : Bool) (rl : Except Str (Option (List Task)))
    (ra : Except Str (Option Task)) (rt : Except Str Unit)
    (rd : Except Str Unit) (hne : trimStr s.newTask ≠ []) :
    (loadTasks uid s rl).1.error = surfacedError rl ∧
    (addTask uid s ra).1.error = surfacedError ra ∧
    (toggleTask s id c rt).1.error = surfacedError rt ∧
    (deleteTask s id rd).1.error = surfacedError rd := by
  refine ⟨?_, ?_, ?_, ?_⟩
  · cases rl <;> simp [loadTasks, surfacedError]
  · rcases ra with msg | d
    · simp [addTask, hne, surfacedError]
    · rcases d with _ | d <;> simp [addTask, hne, surfacedError]
  · cases rt <;> simp [toggleTask, surfacedError]
  · cases rd <;> simp [deleteTask, surfacedError]

/-- Witness for C10 at a concrete state that starts with a surfaced error
"e": after each operation the error text is determined by that operation's
response alone. -/
theorem operations_reset_error_witness :
    trimStr sampleState.newTask ≠ [] ∧
    ((loadTasks ['u'] sampleState (Except.ok (some []))).1.error =
        surfacedError (Except.ok (α := Option (List Task)) (some [])) ∧
      (addTask ['u'] sampleState (Except.error ['w'])).1.error =
        surfacedError (Except.error (α := Option Task) ['w']) ∧
      (toggleTask sampleState 1 false (Except.ok ())).1.error =
        surfacedError (Except.ok (α := Unit) ()) ∧
      (deleteTask sampleState 1 (Except.error ['y'])).1.error =
        surfacedError (Except.error (α := Unit) ['y'])) :=
  ⟨by decide,
    operations_reset_error ['u'] sampleState 1 false (Except.ok (some []))
      (Except.error ['w']) (Except.ok ()) (Except.error ['y']) (by decide)⟩

end TodoSpec
